import Mathlib

/-!
Shallow embedding of the surveyed botbuilder-js sources: the `OAuthPrompt`
dialog (`beginDialog` / `continueDialog` / `recognizeToken` and helpers) and
the `DialogManager.onTurn` turn driver, together with theorems settling the
specification claims about them.

Conventions of the embedding:
- TypeScript `undefined`-able values become `Option`.
- A step that can raise an exception returns `Res α` (`ok` or `thrown`).
- Wall-clock times (`new Date().getTime()`) are explicit `Nat` millisecond
  parameters.
- Outbound `context.sendActivity` calls are accumulated in a `sends` list;
  provider round-trips are likewise recorded so that theorems can speak
  about which side effects a turn performed.
-/

namespace BotBuilder

/-- Result of a fallible step: a normal value, or a raised exception that
propagates to the caller. -/
inductive Res (α : Type) where
  | ok (a : α)
  | thrown
deriving DecidableEq, Repr

/-- Whether a fallible step returned normally. -/
def Res.isOk {α : Type} : Res α → Bool
  | .ok _ => true
  | .thrown => false

/-- The activity types the prompt inspects (`ActivityTypes` in
botbuilder-core), with a catch-all for every other type. -/
inductive ActivityType where
  | message
  | invoke
  | event
  | other
deriving DecidableEq, Repr

/-- botbuilder-core constant `tokenResponseEventName`. -/
def tokenResponseEventName : String := "tokens/response"

/-- botbuilder-core constant `verifyStateOperationName`. -/
def verifyStateOperationName : String := "signin/verifyState"

/-- botbuilder-core constant `tokenExchangeOperationName`. -/
def tokenExchangeOperationName : String := "signin/tokenExchange"

/-- `TokenResponse` from botbuilder-core: the value a completed prompt
produces. -/
structure TokenResponse where
  channelId : Option String
  connectionName : Option String
  token : Option String
  expiration : Option String
deriving DecidableEq, Repr

/-- The value returned by the adapters `exchangeToken` operation (the
source reads its `channelId`, `connectionName` and `token` fields; a falsy
`token` is `none` or the empty string). -/
structure ExchangeResult where
  channelId : Option String
  connectionName : Option String
  token : Option String
deriving DecidableEq, Repr

/-- The untyped `activity.value` payload, with the fields the prompt reads:
`asTokenResponse` is what the raw object means when the token-response event
path casts it to a `TokenResponse`; `state` is the verification code read by
the Teams path; `hasTokenProperty` models `hasOwnProperty` of the token key,
and `token` / `id` / `connectionName` are the fields of a
`TokenExchangeInvokeRequest`. -/
structure ActivityValue where
  asTokenResponse : TokenResponse
  state : Option String
  hasTokenProperty : Bool
  token : Option String
  id : Option String
  connectionName : Option String
deriving DecidableEq, Repr

/-- The slice of an inbound `Activity` the prompt inspects. -/
structure Activity where
  type : ActivityType
  name : Option String
  text : Option String
  value : Option ActivityValue
deriving DecidableEq, Repr

/-- The transport adapter, as the prompt sees it: capability flags model the
`in`-operator checks, and the two provider operations are abstract functions
of the connection name and code / inbound token.  `getUserTokenImpl` may
raise (`Res.thrown`) to model a provider failure. -/
structure Adapter where
  hasGetUserToken : Bool
  getUserTokenImpl : String → Option String → Res (Option TokenResponse)
  hasExchangeToken : Bool
  exchangeTokenImpl : String → Option String → Option ExchangeResult

/-- Prompt options as stored in the dialog state.  The textual content of
the prompt and retry prompt is abstracted to a string; the input-hint
normalization touches only UI rendering, which the spec places out of
scope. -/
structure PromptOptions where
  prompt : Option String
  retryPrompt : Option String
deriving DecidableEq, Repr

/-- `OAuthPromptSettings` (credentials are irrelevant to the claims and
omitted; `timeout` is milliseconds, defaulted to 900000 at begin time). -/
structure OAuthPromptSettings where
  connectionName : String
  title : String
  text : Option String
  timeout : Option Nat
deriving DecidableEq, Repr

/-- The private per-activation `OAuthPromptState`.  `attemptCount` is the
only key of the free-form `state.state` map that the prompt itself reads or
writes, so the map is modelled by that single optional entry. -/
structure OAuthPromptState where
  attemptCount : Option Nat
  options : PromptOptions
  expires : Nat
deriving DecidableEq, Repr

/-- Body of a token-exchange invoke response (`TokenExchangeInvokeResponse`
in the source). -/
structure TokenExchangeInvokeResponse where
  id : Option String
  connectionName : String
  failureDetail : Option String
deriving DecidableEq, Repr

/-- An outbound activity the prompt can send during a turn. -/
inductive SentActivity where
  | invokeResponse (status : Nat) (body : Option TokenExchangeInvokeResponse)
  | cardPrompt
  | messageActivity (text : String)
deriving DecidableEq, Repr

/-- `PromptRecognizerResult<TokenResponse>`. -/
structure PromptRecognizerResult where
  succeeded : Bool
  value : Option TokenResponse
deriving DecidableEq, Repr

/-- Which of the four recognition branches of `recognizeToken` ran. -/
inductive RecogPath where
  | eventToken
  | teamsVerification
  | tokenExchange
  | messageCode
deriving DecidableEq, Repr

namespace OAuthPrompt

/-- `isTokenResponseEvent` from the source. -/
def isTokenResponseEvent (a : Activity) : Prop :=
  a.type = ActivityType.event ∧ a.name = some tokenResponseEventName

instance (a : Activity) : Decidable (isTokenResponseEvent a) :=
  inferInstanceAs (Decidable (_ ∧ _))

/-- `isTeamsVerificationInvoke` from the source. -/
def isTeamsVerificationInvoke (a : Activity) : Prop :=
  a.type = ActivityType.invoke ∧ a.name = some verifyStateOperationName

instance (a : Activity) : Decidable (isTeamsVerificationInvoke a) :=
  inferInstanceAs (Decidable (_ ∧ _))

/-- `isTokenExchangeRequestInvoke` from the source. -/
def isTokenExchangeRequestInvoke (a : Activity) : Prop :=
  a.type = ActivityType.invoke ∧ a.name = some tokenExchangeOperationName

instance (a : Activity) : Decidable (isTokenExchangeRequestInvoke a) :=
  inferInstanceAs (Decidable (_ ∧ _))

/-- `OAuthPrompt.getUserToken`: throws when the adapter lacks the
operation, otherwise defers to the adapter with the configured connection
name. -/
def getUserToken (settings : OAuthPromptSettings) (adapter : Adapter)
    (code : Option String) : Res (Option TokenResponse) :=
  if adapter.hasGetUserToken then
    adapter.getUserTokenImpl settings.connectionName code
  else
    Res.thrown

/-- Failure detail sent when the invoke payload is missing the
`TokenExchangeInvokeRequest` value or its token field. -/
def missingValueDetail : String :=
  "The bot received an InvokeActivity that is missing a TokenExchangeInvokeRequest value. This is required to be sent with the InvokeActivity."

/-- Failure detail sent when the requests connection name differs from the
configured one. -/
def mismatchDetail : String :=
  "The bot received an InvokeActivity with a TokenExchangeInvokeRequest containing a ConnectionName that does not match the ConnectionName expected by the bots active OAuthPrompt. Ensure these names match when sending the InvokeActivityInvalid ConnectionName in the TokenExchangeInvokeRequest"

/-- Failure detail sent when the adapter does not support token exchange. -/
def notSupportedDetail : String :=
  "The bots BotAdapter does not support token exchange operations. Ensure the bots Adapter supports the ExtendedUserTokenProvider interface."

/-- Failure detail sent when the provider could not exchange the token. -/
def unableToExchangeDetail : String :=
  "The bot is unable to exchange token. Proceed with regular login."

/-- `OAuthPrompt.getTokenExchangeInvokeResponse`: a synchronous invoke
response whose body carries the request id, the configured connection name
and an optional failure detail. -/
def getTokenExchangeInvokeResponse (settings : OAuthPromptSettings)
    (status : Nat) (failureDetail : Option String) (id : Option String) :
    SentActivity :=
  SentActivity.invokeResponse status
    (some { id := id, connectionName := settings.connectionName,
            failureDetail := failureDetail })

/-- The final line of `recognizeToken`: a defined token means success. -/
def mkRecognizerResult (token : Option TokenResponse) :
    PromptRecognizerResult :=
  match token with
  | some t => { succeeded := true, value := some t }
  | none => { succeeded := false, value := none }

/-- First six consecutive decimal digits of a character list, scanning left
to right — the semantics of the regular expression for six digits used by
the magic-code path. -/
def firstSixDigitCode : List Char → Option String
  | [] => none
  | c :: rest =>
    if ((c :: rest).take 6).length = 6 ∧ ((c :: rest).take 6).all Char.isDigit
    then some (String.mk ((c :: rest).take 6))
    else firstSixDigitCode rest

/-- Extract the first six-digit code of a message text, if any. -/
def extractSixDigitCode (s : String) : Option String :=
  firstSixDigitCode s.data

/-- Everything observable about one `recognizeToken` call: the synchronous
replies it sent, its result (or the exception it raised), the provider
round-trips it performed and the branch of the if/else chain that ran. -/
structure RecognizeOutcome where
  sends : List SentActivity
  result : Res PromptRecognizerResult
  getUserTokenCalls : List (Option String)
  exchangeTokenCalls : List (Option String)
  pathTaken : Option RecogPath
deriving DecidableEq, Repr

/-- Body of the first branch of `recognizeToken`: the token-response event
path casts `activity.value` to a `TokenResponse` with no provider
round-trip and no reply. -/
def eventBranch (a : Activity) : RecognizeOutcome :=
  { sends := [],
    result := Res.ok (mkRecognizerResult (a.value.map (fun v => v.asTokenResponse))),
    getUserTokenCalls := [], exchangeTokenCalls := [],
    pathTaken := some RecogPath.eventToken }

/-- Body of the Teams verification branch of `recognizeToken`: read the
code from `value.state` (this read happens before the try block, so an
absent value raises), exchange it via `getUserToken` and reply 200 / 404 /
500 to the invoke; a provider exception is swallowed by the catch block
and the function returns normally with no token. -/
def teamsBranch (settings : OAuthPromptSettings) (adapter : Adapter)
    (value : Option ActivityValue) : RecognizeOutcome :=
  match value with
  | none =>
    { sends := [], result := Res.thrown,
      getUserTokenCalls := [], exchangeTokenCalls := [],
      pathTaken := some RecogPath.teamsVerification }
  | some v =>
    match getUserToken settings adapter v.state with
    | Res.ok (some t) =>
      { sends := [SentActivity.invokeResponse 200 none],
        result := Res.ok (mkRecognizerResult (some t)),
        getUserTokenCalls := [v.state], exchangeTokenCalls := [],
        pathTaken := some RecogPath.teamsVerification }
    | Res.ok none =>
      { sends := [SentActivity.invokeResponse 404 none],
        result := Res.ok (mkRecognizerResult none),
        getUserTokenCalls := [v.state], exchangeTokenCalls := [],
        pathTaken := some RecogPath.teamsVerification }
    | Res.thrown =>
      { sends := [SentActivity.invokeResponse 500 none],
        result := Res.ok (mkRecognizerResult none),
        getUserTokenCalls := [v.state], exchangeTokenCalls := [],
        pathTaken := some RecogPath.teamsVerification }

/-- Body of the token-exchange branch of `recognizeToken`, validating in
the source order: missing payload / missing token field (400), connection
name mismatch (400), adapter without exchange support (502 reply followed
by a raised error), then the provider exchange call (409 when the result
is absent or has a falsy token, else 200 echoing the request id and
producing the exchanged token). -/
def exchangeBranch (settings : OAuthPromptSettings) (adapter : Adapter)
    (value : Option ActivityValue) : RecognizeOutcome :=
  match value with
  | none =>
    { sends := [getTokenExchangeInvokeResponse settings 400 (some missingValueDetail) none],
      result := Res.ok (mkRecognizerResult none),
      getUserTokenCalls := [], exchangeTokenCalls := [],
      pathTaken := some RecogPath.tokenExchange }
  | some v =>
    if v.hasTokenProperty = false then
      { sends := [getTokenExchangeInvokeResponse settings 400 (some missingValueDetail) none],
        result := Res.ok (mkRecognizerResult none),
        getUserTokenCalls := [], exchangeTokenCalls := [],
        pathTaken := some RecogPath.tokenExchange }
    else if v.connectionName ≠ some settings.connectionName then
      { sends := [getTokenExchangeInvokeResponse settings 400 (some mismatchDetail) none],
        result := Res.ok (mkRecognizerResult none),
        getUserTokenCalls := [], exchangeTokenCalls := [],
        pathTaken := some RecogPath.tokenExchange }
    else if adapter.hasExchangeToken = false then
      { sends := [getTokenExchangeInvokeResponse settings 502 (some notSupportedDetail) none],
        result := Res.thrown,
        getUserTokenCalls := [], exchangeTokenCalls := [],
        pathTaken := some RecogPath.tokenExchange }
    else
      match adapter.exchangeTokenImpl settings.connectionName v.token with
      | none =>
        { sends := [getTokenExchangeInvokeResponse settings 409 (some unableToExchangeDetail) none],
          result := Res.ok (mkRecognizerResult none),
          getUserTokenCalls := [], exchangeTokenCalls := [v.token],
          pathTaken := some RecogPath.tokenExchange }
      | some r =>
        if r.token = none ∨ r.token = some "" then
          { sends := [getTokenExchangeInvokeResponse settings 409 (some unableToExchangeDetail) none],
            result := Res.ok (mkRecognizerResult none),
            getUserTokenCalls := [], exchangeTokenCalls := [v.token],
            pathTaken := some RecogPath.tokenExchange }
        else
          { sends := [getTokenExchangeInvokeResponse settings 200 none v.id],
            result := Res.ok (mkRecognizerResult (some
              { channelId := r.channelId, connectionName := r.connectionName,
                token := r.token, expiration := none })),
            getUserTokenCalls := [], exchangeTokenCalls := [v.token],
            pathTaken := some RecogPath.tokenExchange }

/-- Body of the plain-message branch of `recognizeToken`: when the text
contains six consecutive digits, look the code up with the provider (an
exception here escapes); otherwise recognize nothing. -/
def messageBranch (settings : OAuthPromptSettings) (adapter : Adapter)
    (text : Option String) : RecognizeOutcome :=
  match text.bind extractSixDigitCode with
  | some code =>
    match getUserToken settings adapter (some code) with
    | Res.ok t =>
      { sends := [], result := Res.ok (mkRecognizerResult t),
        getUserTokenCalls := [some code], exchangeTokenCalls := [],
        pathTaken := some RecogPath.messageCode }
    | Res.thrown =>
      { sends := [], result := Res.thrown,
        getUserTokenCalls := [some code], exchangeTokenCalls := [],
        pathTaken := some RecogPath.messageCode }
  | none =>
    { sends := [], result := Res.ok (mkRecognizerResult none),
      getUserTokenCalls := [], exchangeTokenCalls := [],
      pathTaken := some RecogPath.messageCode }

/-- `OAuthPrompt.recognizeToken`: the four recognition paths are attempted
in the source order — token-response event, Teams verification invoke,
token-exchange invoke, then plain message — and an activity matching none
of them recognizes nothing. -/
def recognizeToken (settings : OAuthPromptSettings) (adapter : Adapter)
    (a : Activity) : RecognizeOutcome :=
  if isTokenResponseEvent a then
    eventBranch a
  else if isTeamsVerificationInvoke a then
    teamsBranch settings adapter a.value
  else if isTokenExchangeRequestInvoke a then
    exchangeBranch settings adapter a.value
  else if a.type = ActivityType.message then
    messageBranch settings adapter a.text
  else
    { sends := [], result := Res.ok (mkRecognizerResult none),
      getUserTokenCalls := [], exchangeTokenCalls := [],
      pathTaken := none }

/-- `DialogTurnResult`, restricted to what the prompt can return:
`endDialog v` models `dc.endDialog(v)` (pop with result `v`), `endOfTurn`
models `Dialog.EndOfTurn` (suspend until the next turn). -/
inductive DialogTurnResult where
  | endDialog (value : Option TokenResponse)
  | endOfTurn
deriving DecidableEq, Repr

/-- The arguments handed to a caller-supplied `PromptValidator` that the
claims reason about (the validator also receives the turn context and its
free-form state map, which are opaque here). -/
structure ValidatorInput where
  recognized : PromptRecognizerResult
  options : PromptOptions
  attemptCount : Nat
deriving DecidableEq, Repr

/-- Everything observable about one `continueDialog` call.  `newAttemptCount`
is the value of the `attemptCount` key of the private state after the call,
`validatorCalls` lists the validator invocations with their arguments,
`hasTimedOut` records whether the timeout branch ran, `isValid` records the
computed validation verdict (`none` when the turn ended before validation),
and `retrySent` whether the retry prompt was sent. -/
structure ContinueOutcome where
  sends : List SentActivity
  result : Res DialogTurnResult
  newAttemptCount : Option Nat
  validatorCalls : List ValidatorInput
  hasTimedOut : Bool
  isValid : Option Bool
  retrySent : Bool
deriving Repr

/-- `OAuthPrompt.continueDialog` from the source: recognize first, then the
message-only timeout check, then initialization of `attemptCount`,
validation (incrementing `attemptCount` before the validator runs), and
finally either completion with the recognized value or the conditional
retry prompt followed by end of turn.  An exception escaping
`recognizeToken` escapes `continueDialog` as well.  `responded` is
`dc.context.responded` on entry; it becomes true once anything has been
sent this turn. -/
def continueDialog (settings : OAuthPromptSettings)
    (validator : Option (ValidatorInput → Bool)) (adapter : Adapter)
    (a : Activity) (responded : Bool) (st : OAuthPromptState) (now : Nat) :
    ContinueOutcome :=
  let recog := recognizeToken settings adapter a
  match recog.result with
  | Res.thrown =>
    { sends := recog.sends, result := Res.thrown,
      newAttemptCount := st.attemptCount, validatorCalls := [],
      hasTimedOut := false, isValid := none, retrySent := false }
  | Res.ok recognized =>
    if a.type = ActivityType.message ∧ now > st.expires then
      { sends := recog.sends,
        result := Res.ok (DialogTurnResult.endDialog none),
        newAttemptCount := st.attemptCount, validatorCalls := [],
        hasTimedOut := true, isValid := none, retrySent := false }
    else
      -- state.state.attemptCount initialized to 0 when undefined
      let n0 := st.attemptCount.getD 0
      let vstep : Bool × List ValidatorInput × Nat :=
        match validator with
        | some f =>
          let input : ValidatorInput :=
            { recognized := recognized, options := st.options,
              attemptCount := n0 + 1 }
          (f input, [input], n0 + 1)
        | none => (recognized.succeeded, [], n0)
      if vstep.1 then
        { sends := recog.sends,
          result := Res.ok (DialogTurnResult.endDialog recognized.value),
          newAttemptCount := some vstep.2.2, validatorCalls := vstep.2.1,
          hasTimedOut := false, isValid := some true, retrySent := false }
      else
        let respondedNow := responded || !recog.sends.isEmpty
        if respondedNow = false ∧ a.type = ActivityType.message ∧
            st.options.retryPrompt.isSome then
          { sends := recog.sends ++
              [SentActivity.messageActivity (st.options.retryPrompt.getD "")],
            result := Res.ok DialogTurnResult.endOfTurn,
            newAttemptCount := some vstep.2.2, validatorCalls := vstep.2.1,
            hasTimedOut := false, isValid := some false, retrySent := true }
        else
          { sends := recog.sends,
            result := Res.ok DialogTurnResult.endOfTurn,
            newAttemptCount := some vstep.2.2, validatorCalls := vstep.2.1,
            hasTimedOut := false, isValid := some false, retrySent := false }

/-- Everything observable about one `beginDialog` call.  `state` is the
freshly initialized private state (empty map, copied options, absolute
expiry deadline). -/
structure BeginOutcome where
  sends : List SentActivity
  result : Res DialogTurnResult
  state : OAuthPromptState
deriving Repr

/-- `OAuthPrompt.beginDialog` from the source: initialize the prompt state
with `expires = now + timeout` (default 900000 ms), attempt the silent
token lookup, and either complete immediately with the token or send the
login card (`sendOAuthCardAsync`, whose card construction is
channel-rendering detail, abstracted to a single `cardPrompt` send) and
suspend. -/
def beginDialog (settings : OAuthPromptSettings) (adapter : Adapter)
    (options : PromptOptions) (now : Nat) : BeginOutcome :=
  let timeoutMs := settings.timeout.getD 900000
  let st : OAuthPromptState :=
    { attemptCount := none, options := options, expires := now + timeoutMs }
  match getUserToken settings adapter none with
  | Res.thrown => { sends := [], result := Res.thrown, state := st }
  | Res.ok (some t) =>
    { sends := [], result := Res.ok (DialogTurnResult.endDialog (some t)),
      state := st }
  | Res.ok none =>
    { sends := [SentActivity.cardPrompt],
      result := Res.ok DialogTurnResult.endOfTurn, state := st }

end OAuthPrompt

namespace DialogManager

/-- The persisted conversation state as `onTurn` touches it: the
`_lastAccess` property (epoch milliseconds) and an abstract payload for
everything else stored in the conversation scope (`none` when cleared or
fresh). -/
structure ConvState (α : Type) where
  lastAccess : Option Nat
  data : Option α
deriving DecidableEq, Repr

/-- `ConversationState.clear`: every property of the conversation scope is
removed, including `_lastAccess`. -/
def clearConversationState {α : Type} : ConvState α :=
  { lastAccess := none, data := none }

/-- Result of the last-access / expiry fragment of one `onTurn` call. -/
structure AccessOutcome (α : Type) where
  state : ConvState α
  cleared : Bool
deriving DecidableEq, Repr

/-- The `_lastAccess` handling of `DialogManager.onTurn`, line by line:
load the stored last access (defaulting to the current time when absent),
clear the conversation state when `expireAfter` is configured and at least
that many milliseconds have elapsed since the loaded timestamp, then write
the *loaded* value back into the `_lastAccess` property. -/
def onTurnAccess {α : Type} (expireAfter : Option Nat) (now : Nat)
    (st : ConvState α) : AccessOutcome α :=
  let la := st.lastAccess.getD now
  let expired : Bool :=
    match expireAfter with
    | some e => decide ((now : Int) - (la : Int) ≥ (e : Int))
    | none => false
  let st1 := if expired then clearConversationState else st
  { state := { st1 with lastAccess := some la }, cleared := expired }

/-- Iterate the last-access fragment over a sequence of turn times. -/
def runTurns {α : Type} (expireAfter : Option Nat) :
    ConvState α → List Nat → ConvState α
  | st, [] => st
  | st, t :: ts => runTurns expireAfter (onTurnAccess expireAfter t st).state ts

/-- Outcome of one execution of the try block of the turn-driving loop of
`onTurn` (a `dc.continueDialog` / `dc.beginDialog` round): either a turn
result or a raised exception. -/
inductive TurnOutcome (ε ρ : Type) where
  | completed (r : ρ)
  | raised (e : ε)
deriving DecidableEq, Repr

/-- Modelled from the spec: `DialogContext.emitEvent` is not among the
surveyed files; per spec section 4.2 the `error` event starts at the leaf
(top of stack) and is re-dispatched toward the root until some dialog
consumes it, returning whether any handler consumed it.  `frames` lists,
leaf first, the error handler of each stack frame. -/
def emitEventFromLeaf {ε : Type} (frames : List (ε → Bool)) (e : ε) : Bool :=
  match frames with
  | [] => false
  | f :: rest => if f e then true else emitEventFromLeaf rest e

/-- The `while (true)` turn-driving loop of `onTurn`: run the next attempt
of `continueDialog`/`beginDialog`; on success break with the result; on an
exception emit the bubbling `error` event and either retry (when consumed)
or re-raise.  `fuel` bounds the number of loop iterations (the source loop
may run forever when every attempt fails and is consumed); `i` counts the
attempts already made. -/
def driveLoop {ε ρ : Type} (attempts : Nat → TurnOutcome ε ρ)
    (frames : List (ε → Bool)) : Nat → Nat → Option (TurnOutcome ε ρ)
  | 0, _ => none
  | fuel + 1, i =>
    match attempts i with
    | TurnOutcome.completed r => some (TurnOutcome.completed r)
    | TurnOutcome.raised e =>
      if emitEventFromLeaf frames e then driveLoop attempts frames fuel (i + 1)
      else some (TurnOutcome.raised e)

/-- What `onTurn` does after the loop: on normal completion it saves all
state changes and sends the trace activity; on a re-raised exception both
are skipped. -/
structure DriveOutcome (ε ρ : Type) where
  result : TurnOutcome ε ρ
  saved : Bool
  traceSent : Bool
deriving DecidableEq, Repr

/-- The turn-driving tail of `DialogManager.onTurn`: the loop followed by
`saveAllChanges` and the bot-state trace activity, both of which run only
when the loop breaks normally.  `none` models a run that exhausts `fuel`
without terminating. -/
def onTurnDrive {ε ρ : Type} (attempts : Nat → TurnOutcome ε ρ)
    (frames : List (ε → Bool)) (fuel : Nat) : Option (DriveOutcome ε ρ) :=
  match driveLoop attempts frames fuel 0 with
  | none => none
  | some (TurnOutcome.completed r) =>
    some { result := TurnOutcome.completed r, saved := true, traceSent := true }
  | some (TurnOutcome.raised e) =>
    some { result := TurnOutcome.raised e, saved := false, traceSent := false }

end DialogManager

/-! ### Concrete sample data used by the witness theorems -/

/-- Sample settings: connection `Contoso`, one-second timeout. -/
def sampleSettings : OAuthPromptSettings :=
  { connectionName := "Contoso", title := "Login", text := none,
    timeout := some 1000 }

/-- An adapter whose silent and code lookups find no token and whose
exchange operation always fails. -/
def sampleAdapterNoToken : Adapter :=
  { hasGetUserToken := true, getUserTokenImpl := fun _ _ => Res.ok none,
    hasExchangeToken := true, exchangeTokenImpl := fun _ _ => none }

/-- A sample token. -/
def sampleToken : TokenResponse :=
  { channelId := some "test", connectionName := some "Contoso",
    token := some "tok", expiration := none }

/-- An adapter that returns `sampleToken` for code `482913` (and silently
otherwise finds nothing) and can exchange the inbound token `x`. -/
def sampleAdapterWithToken : Adapter :=
  { hasGetUserToken := true,
    getUserTokenImpl := fun _ c =>
      Res.ok (if c = some "482913" then some sampleToken else none),
    hasExchangeToken := true,
    exchangeTokenImpl := fun _ t =>
      if t = some "x" then
        some { channelId := some "test", connectionName := some "Contoso",
               token := some "extok" }
      else none }

/-- An adapter whose silent lookup always finds `sampleToken`. -/
def sampleAdapterSilentToken : Adapter :=
  { hasGetUserToken := true,
    getUserTokenImpl := fun _ _ => Res.ok (some sampleToken),
    hasExchangeToken := false, exchangeTokenImpl := fun _ _ => none }

/-- A plain text message activity. -/
def sampleMessage (t : String) : Activity :=
  { type := ActivityType.message, name := none, text := some t, value := none }

/-- A token-exchange invoke activity with the given payload. -/
def sampleExchangeInvoke (v : Option ActivityValue) : Activity :=
  { type := ActivityType.invoke, name := some tokenExchangeOperationName,
    text := none, value := v }

/-- A Teams verification invoke activity with the given payload. -/
def sampleVerifyInvoke (v : Option ActivityValue) : Activity :=
  { type := ActivityType.invoke, name := some verifyStateOperationName,
    text := none, value := v }

/-- A token-exchange request payload with the given connection name. -/
def sampleExchangeValue (conn : String) : ActivityValue :=
  { asTokenResponse := sampleToken, state := none, hasTokenProperty := true,
    token := some "x", id := some "rid", connectionName := some conn }

/-- A verification payload carrying code `482913`. -/
def sampleVerifyValue : ActivityValue :=
  { asTokenResponse := sampleToken, state := some "482913",
    hasTokenProperty := false, token := none, id := none,
    connectionName := none }

/-- Sample prompt state with a retry prompt configured and expiry at 1000. -/
def sampleState : OAuthPromptState :=
  { attemptCount := none,
    options := { prompt := some "please sign in", retryPrompt := some "retry" },
    expires := 1000 }

namespace OAuthPrompt

/-! ### Helper lemmas about the recognition chain -/

lemma not_event_of_type {a : Activity} (ha : a.type ≠ ActivityType.event) :
    ¬ isTokenResponseEvent a :=
  fun h => ha h.1

lemma not_teams_of_type {a : Activity} (ha : a.type ≠ ActivityType.invoke) :
    ¬ isTeamsVerificationInvoke a :=
  fun h => ha h.1

lemma not_exchange_of_type {a : Activity} (ha : a.type ≠ ActivityType.invoke) :
    ¬ isTokenExchangeRequestInvoke a :=
  fun h => ha h.1

lemma not_teams_of_exchange {a : Activity} (ha : isTokenExchangeRequestInvoke a) :
    ¬ isTeamsVerificationInvoke a :=
  fun h => absurd (ha.2.symm.trans h.2) (by decide)

lemma not_exchange_of_teams {a : Activity} (ha : isTeamsVerificationInvoke a) :
    ¬ isTokenExchangeRequestInvoke a :=
  fun h => absurd (ha.2.symm.trans h.2) (by decide)

lemma recognizeToken_of_event (settings : OAuthPromptSettings) (adapter : Adapter)
    {a : Activity} (ha : isTokenResponseEvent a) :
    recognizeToken settings adapter a = eventBranch a := by
  unfold recognizeToken
  rw [if_pos ha]

lemma recognizeToken_of_teams (settings : OAuthPromptSettings) (adapter : Adapter)
    {a : Activity} (ha : isTeamsVerificationInvoke a) :
    recognizeToken settings adapter a = teamsBranch settings adapter a.value := by
  unfold recognizeToken
  rw [if_neg (not_event_of_type (by rw [ha.1]; decide)), if_pos ha]

lemma recognizeToken_of_exchange (settings : OAuthPromptSettings) (adapter : Adapter)
    {a : Activity} (ha : isTokenExchangeRequestInvoke a) :
    recognizeToken settings adapter a = exchangeBranch settings adapter a.value := by
  unfold recognizeToken
  rw [if_neg (not_event_of_type (by rw [ha.1]; decide)),
      if_neg (not_teams_of_exchange ha), if_pos ha]

lemma recognizeToken_of_message (settings : OAuthPromptSettings) (adapter : Adapter)
    {a : Activity} (ha : a.type = ActivityType.message) :
    recognizeToken settings adapter a = messageBranch settings adapter a.text := by
  unfold recognizeToken
  rw [if_neg (not_event_of_type (by rw [ha]; decide)),
      if_neg (not_teams_of_type (by rw [ha]; decide)),
      if_neg (not_exchange_of_type (by rw [ha]; decide)),
      if_pos ha]

lemma eventBranch_pathTaken (a : Activity) :
    (eventBranch a).pathTaken = some RecogPath.eventToken := rfl

lemma teamsBranch_pathTaken (settings : OAuthPromptSettings) (adapter : Adapter)
    (value : Option ActivityValue) :
    (teamsBranch settings adapter value).pathTaken = some RecogPath.teamsVerification := by
  cases value with
  | none => rfl
  | some v =>
    cases hg : getUserToken settings adapter v.state with
    | ok t => cases t <;> simp [teamsBranch, hg]
    | thrown => simp [teamsBranch, hg]

lemma exchangeBranch_pathTaken (settings : OAuthPromptSettings) (adapter : Adapter)
    (value : Option ActivityValue) :
    (exchangeBranch settings adapter value).pathTaken = some RecogPath.tokenExchange := by
  cases value with
  | none => rfl
  | some v =>
    cases hx : adapter.exchangeTokenImpl settings.connectionName v.token with
    | none => simp only [exchangeBranch, hx]; split_ifs <;> rfl
    | some r => simp only [exchangeBranch, hx]; split_ifs <;> rfl

lemma messageBranch_pathTaken (settings : OAuthPromptSettings) (adapter : Adapter)
    (text : Option String) :
    (messageBranch settings adapter text).pathTaken = some RecogPath.messageCode := by
  cases hc : text.bind extractSixDigitCode with
  | none => simp [messageBranch, hc]
  | some code =>
    cases hg : getUserToken settings adapter (some code) with
    | ok t => simp [messageBranch, hc, hg]
    | thrown => simp [messageBranch, hc, hg]

lemma recognizeToken_pathTaken (settings : OAuthPromptSettings)
    (adapter : Adapter) (a : Activity) :
    (recognizeToken settings adapter a).pathTaken =
      if isTokenResponseEvent a then some RecogPath.eventToken
      else if isTeamsVerificationInvoke a then some RecogPath.teamsVerification
      else if isTokenExchangeRequestInvoke a then some RecogPath.tokenExchange
      else if a.type = ActivityType.message then some RecogPath.messageCode
      else none := by
  unfold recognizeToken
  split_ifs with h1 h2 h3 h4
  · rfl
  · exact teamsBranch_pathTaken settings adapter a.value
  · exact exchangeBranch_pathTaken settings adapter a.value
  · exact messageBranch_pathTaken settings adapter a.text
  · rfl

lemma messageBranch_quiet (settings : OAuthPromptSettings) (adapter : Adapter)
    (text : Option String) :
    (messageBranch settings adapter text).sends = []
      ∧ (messageBranch settings adapter text).exchangeTokenCalls = [] := by
  cases hc : text.bind extractSixDigitCode with
  | none => simp [messageBranch, hc]
  | some code =>
    cases hg : getUserToken settings adapter (some code) with
    | ok t => simp [messageBranch, hc, hg]
    | thrown => simp [messageBranch, hc, hg]

lemma messageBranch_result_ok (settings : OAuthPromptSettings) (adapter : Adapter)
    (text : Option String)
    (hok : ∀ c, Res.isOk (getUserToken settings adapter c) = true) :
    ∃ r, (messageBranch settings adapter text).result = Res.ok r := by
  cases hc : text.bind extractSixDigitCode with
  | none => exact ⟨mkRecognizerResult none, by simp [messageBranch, hc]⟩
  | some code =>
    cases hg : getUserToken settings adapter (some code) with
    | ok t => exact ⟨mkRecognizerResult t, by simp [messageBranch, hc, hg]⟩
    | thrown =>
      have hk := hok (some code)
      rw [hg] at hk
      exact absurd hk (by simp [Res.isOk])

end OAuthPrompt

/-! ### Claim theorems -/

open OAuthPrompt

/-- Claim C1: on a continue turn whose inbound activity is a plain message
arriving strictly after the stored expiry, the prompt pops with an absent
token no matter what the message contains, and the validator is never
invoked on that turn; a non-message (invoke or event) activity never takes
the timeout branch.  The hypothesis states that the provider token lookup
does not raise (spec section 6: `getUserToken` throws only on transport
failure). -/
theorem claim_C1 (settings : OAuthPromptSettings)
    (validator : Option (ValidatorInput → Bool)) (adapter : Adapter)
    (a : Activity) (responded : Bool) (st : OAuthPromptState) (now : Nat)
    (hok : ∀ c, Res.isOk (getUserToken settings adapter c) = true) :
    (a.type = ActivityType.message → now > st.expires →
      (continueDialog settings validator adapter a responded st now).result =
          Res.ok (DialogTurnResult.endDialog none)
        ∧ (continueDialog settings validator adapter a responded st now).validatorCalls = []
        ∧ (continueDialog settings validator adapter a responded st now).hasTimedOut = true)
    ∧ (a.type ≠ ActivityType.message →
        (continueDialog settings validator adapter a responded st now).hasTimedOut = false) := by
  constructor
  · intro ha htime
    obtain ⟨r, hr⟩ := messageBranch_result_ok settings adapter a.text hok
    have hres : (recognizeToken settings adapter a).result = Res.ok r := by
      rw [recognizeToken_of_message settings adapter ha, hr]
    simp [continueDialog, hres, ha, htime]
  · intro ha
    cases hres : (recognizeToken settings adapter a).result with
    | thrown => simp [continueDialog, hres]
    | ok r =>
      simp only [continueDialog, hres]
      rw [if_neg (by intro h; exact ha h.1)]
      split
      · rfl
      · split <;> rfl

/-- Claim C1 witness: a concrete timed-out "hello" message completes with
an absent token. -/
theorem claim_C1_witness :
    (continueDialog sampleSettings none sampleAdapterNoToken
      (sampleMessage "hello") false sampleState 1500).result =
      Res.ok (DialogTurnResult.endDialog none) :=
  ((claim_C1 sampleSettings none sampleAdapterNoToken (sampleMessage "hello")
      false sampleState 1500 (fun _ => rfl)).1 rfl (by decide)).1

/-- Claim C2: with a validator configured, a turn that reaches validation
initializes `attemptCount` (default 0), increments it by exactly one, and
passes the incremented value to the single validator call of that turn;
the count persists exactly when validation fails (end-of-turn), while a
successful validation pops the dialog (discarding its state); and a
timeout-short-circuited turn neither increments the count nor invokes the
validator. -/
theorem claim_C2 (settings : OAuthPromptSettings) (f : ValidatorInput → Bool)
    (adapter : Adapter) (a : Activity) (responded : Bool)
    (st : OAuthPromptState) (now : Nat) (recognized : PromptRecognizerResult)
    (hrec : (recognizeToken settings adapter a).result = Res.ok recognized) :
    (a.type = ActivityType.message ∧ now > st.expires →
      (continueDialog settings (some f) adapter a responded st now).newAttemptCount = st.attemptCount
      ∧ (continueDialog settings (some f) adapter a responded st now).validatorCalls = [])
    ∧ (¬(a.type = ActivityType.message ∧ now > st.expires) →
      (continueDialog settings (some f) adapter a responded st now).validatorCalls =
          [{ recognized := recognized, options := st.options,
             attemptCount := st.attemptCount.getD 0 + 1 }]
      ∧ (continueDialog settings (some f) adapter a responded st now).newAttemptCount =
          some (st.attemptCount.getD 0 + 1)
      ∧ ((continueDialog settings (some f) adapter a responded st now).result =
            Res.ok DialogTurnResult.endOfTurn ↔
          f { recognized := recognized, options := st.options,
              attemptCount := st.attemptCount.getD 0 + 1 } = false)
      ∧ (f { recognized := recognized, options := st.options,
             attemptCount := st.attemptCount.getD 0 + 1 } = true →
          (continueDialog settings (some f) adapter a responded st now).result =
            Res.ok (DialogTurnResult.endDialog recognized.value))) := by
  constructor
  · intro h
    simp only [continueDialog, hrec]
    rw [if_pos h]
    exact ⟨rfl, rfl⟩
  · intro h
    simp only [continueDialog, hrec]
    rw [if_neg h]
    cases hv : f ⟨recognized, st.options, st.attemptCount.getD 0 + 1⟩ with
    | true => simp [hv]
    | false =>
      simp only [hv]
      split_ifs <;> simp_all

/-- Claim C2 witness: a concrete non-timed-out unrecognized message with an
always-rejecting validator records one validator call with attempt count
1. -/
theorem claim_C2_witness :
    (continueDialog sampleSettings (some (fun _ => false)) sampleAdapterNoToken
        (sampleMessage "hello") false sampleState 500).validatorCalls =
      [{ recognized := mkRecognizerResult none,
         options := sampleState.options, attemptCount := 1 }] :=
  ((claim_C2 sampleSettings (fun _ => false) sampleAdapterNoToken
      (sampleMessage "hello") false sampleState 500 (mkRecognizerResult none)
      rfl).2 (by decide)).1

/-- Claim C3: on a token-exchange invoke the prompt validates in source
order and sends exactly one synchronous reply per outcome — (i) missing
payload or missing token field: one 400 reply with the missing-value
detail, no token, and no provider exchange call; (ii) connection-name
mismatch: one 400 reply with the mismatch detail and no token; (iii)
adapter without exchange support: one 502 reply followed by a raised error
that escapes the prompt; (iv) provider exchange returning nothing or a
falsy token: one 409 reply and no token this turn; provider success: one
200 reply echoing the inbound request id and the exchanged token
recognized. -/
theorem claim_C3 (settings : OAuthPromptSettings) (adapter : Adapter)
    (a : Activity) (ha : isTokenExchangeRequestInvoke a) :
    ((a.value = none ∨ ∃ v, a.value = some v ∧ v.hasTokenProperty = false) →
      (recognizeToken settings adapter a).sends =
          [getTokenExchangeInvokeResponse settings 400 (some missingValueDetail) none]
        ∧ (recognizeToken settings adapter a).result = Res.ok (mkRecognizerResult none)
        ∧ (recognizeToken settings adapter a).exchangeTokenCalls = [])
    ∧ (∀ v, a.value = some v → v.hasTokenProperty = true →
        v.connectionName ≠ some settings.connectionName →
      (recognizeToken settings adapter a).sends =
          [getTokenExchangeInvokeResponse settings 400 (some mismatchDetail) none]
        ∧ (recognizeToken settings adapter a).result = Res.ok (mkRecognizerResult none)
        ∧ (recognizeToken settings adapter a).exchangeTokenCalls = [])
    ∧ (∀ v, a.value = some v → v.hasTokenProperty = true →
        v.connectionName = some settings.connectionName →
        adapter.hasExchangeToken = false →
      (recognizeToken settings adapter a).sends =
          [getTokenExchangeInvokeResponse settings 502 (some notSupportedDetail) none]
        ∧ (recognizeToken settings adapter a).result = Res.thrown)
    ∧ (∀ v, a.value = some v → v.hasTokenProperty = true →
        v.connectionName = some settings.connectionName →
        adapter.hasExchangeToken = true →
        (adapter.exchangeTokenImpl settings.connectionName v.token = none ∨
          ∃ r, adapter.exchangeTokenImpl settings.connectionName v.token = some r ∧
            (r.token = none ∨ r.token = some "")) →
      (recognizeToken settings adapter a).sends =
          [getTokenExchangeInvokeResponse settings 409 (some unableToExchangeDetail) none]
        ∧ (recognizeToken settings adapter a).result = Res.ok (mkRecognizerResult none))
    ∧ (∀ v r, a.value = some v → v.hasTokenProperty = true →
        v.connectionName = some settings.connectionName →
        adapter.hasExchangeToken = true →
        adapter.exchangeTokenImpl settings.connectionName v.token = some r →
        ¬(r.token = none ∨ r.token = some "") →
      (recognizeToken settings adapter a).sends =
          [getTokenExchangeInvokeResponse settings 200 none v.id]
        ∧ (recognizeToken settings adapter a).result = Res.ok (mkRecognizerResult (some
            { channelId := r.channelId, connectionName := r.connectionName,
              token := r.token, expiration := none }))
        ∧ (recognizeToken settings adapter a).exchangeTokenCalls = [v.token]) := by
  rw [recognizeToken_of_exchange settings adapter ha]
  refine ⟨?_, ?_, ?_, ?_, ?_⟩
  · rintro (hnone | ⟨v, hv, hprop⟩)
    · simp [exchangeBranch, hnone]
    · simp [exchangeBranch, hv, hprop]
  · intro v hv hprop hconn
    simp [exchangeBranch, hv, hprop, hconn]
  · intro v hv hprop hconn hada
    simp [exchangeBranch, hv, hprop, hconn, hada]
  · rintro v hv hprop hconn hada (hx | ⟨r, hr, htok⟩)
    · simp [exchangeBranch, hv, hprop, hconn, hada, hx]
    · simp [exchangeBranch, hv, hprop, hconn, hada, hr, htok]
  · intro v r hv hprop hconn hada hr htok
    simp [exchangeBranch, hv, hprop, hconn, hada, hr, htok]

/-- Claim C3 witness: a concrete successful exchange replies 200 echoing
the request id and recognizes the exchanged token. -/
theorem claim_C3_witness :
    (recognizeToken sampleSettings sampleAdapterWithToken
        (sampleExchangeInvoke (some (sampleExchangeValue "Contoso")))).sends =
      [getTokenExchangeInvokeResponse sampleSettings 200 none (some "rid")] :=
  ((claim_C3 sampleSettings sampleAdapterWithToken
      (sampleExchangeInvoke (some (sampleExchangeValue "Contoso")))
      ⟨rfl, rfl⟩).2.2.2.2 (sampleExchangeValue "Contoso")
      { channelId := some "test", connectionName := some "Contoso",
        token := some "extok" }
      rfl rfl rfl rfl rfl (by decide)).1

/-- Claim C5: the four recognition categories are pairwise mutually
exclusive, the branch taken by `recognizeToken` is characterized by the
priority order of the source if/else chain (so a hypothetical activity in
two categories would route to the higher-priority one), and the
token-response event path and the plain-message path perform none of the
reply or exchange effects of the invoke paths. -/
theorem claim_C5 (settings : OAuthPromptSettings) (adapter : Adapter)
    (a : Activity) :
    (¬(isTokenResponseEvent a ∧ isTeamsVerificationInvoke a))
    ∧ (¬(isTokenResponseEvent a ∧ isTokenExchangeRequestInvoke a))
    ∧ (¬(isTokenResponseEvent a ∧ a.type = ActivityType.message))
    ∧ (¬(isTeamsVerificationInvoke a ∧ isTokenExchangeRequestInvoke a))
    ∧ (¬(isTeamsVerificationInvoke a ∧ a.type = ActivityType.message))
    ∧ (¬(isTokenExchangeRequestInvoke a ∧ a.type = ActivityType.message))
    ∧ ((recognizeToken settings adapter a).pathTaken = some RecogPath.eventToken
        ↔ isTokenResponseEvent a)
    ∧ ((recognizeToken settings adapter a).pathTaken = some RecogPath.teamsVerification
        ↔ isTeamsVerificationInvoke a)
    ∧ ((recognizeToken settings adapter a).pathTaken = some RecogPath.tokenExchange
        ↔ isTokenExchangeRequestInvoke a)
    ∧ ((recognizeToken settings adapter a).pathTaken = some RecogPath.messageCode
        ↔ a.type = ActivityType.message)
    ∧ (isTokenResponseEvent a →
        (recognizeToken settings adapter a).sends = []
        ∧ (recognizeToken settings adapter a).getUserTokenCalls = []
        ∧ (recognizeToken settings adapter a).exchangeTokenCalls = [])
    ∧ (a.type = ActivityType.message →
        (recognizeToken settings adapter a).sends = []
        ∧ (recognizeToken settings adapter a).exchangeTokenCalls = []) := by
  have e12 : ¬(isTokenResponseEvent a ∧ isTeamsVerificationInvoke a) :=
    fun h => absurd (h.1.1.symm.trans h.2.1) (by decide)
  have e13 : ¬(isTokenResponseEvent a ∧ isTokenExchangeRequestInvoke a) :=
    fun h => absurd (h.1.1.symm.trans h.2.1) (by decide)
  have e14 : ¬(isTokenResponseEvent a ∧ a.type = ActivityType.message) :=
    fun h => absurd (h.1.1.symm.trans h.2) (by decide)
  have e23 : ¬(isTeamsVerificationInvoke a ∧ isTokenExchangeRequestInvoke a) :=
    fun h => not_exchange_of_teams h.1 h.2
  have e24 : ¬(isTeamsVerificationInvoke a ∧ a.type = ActivityType.message) :=
    fun h => absurd (h.1.1.symm.trans h.2) (by decide)
  have e34 : ¬(isTokenExchangeRequestInvoke a ∧ a.type = ActivityType.message) :=
    fun h => absurd (h.1.1.symm.trans h.2) (by decide)
  refine ⟨e12, e13, e14, e23, e24, e34, ?_, ?_, ?_, ?_, ?_, ?_⟩
  · rw [recognizeToken_pathTaken]
    split_ifs with h1 h2 h3 h4 <;> simp_all
  · rw [recognizeToken_pathTaken]
    split_ifs with h1 h2 h3 h4 <;> simp_all
  · rw [recognizeToken_pathTaken]
    split_ifs with h1 h2 h3 h4 <;> simp_all
  · rw [recognizeToken_pathTaken]
    split_ifs with h1 h2 h3 h4 <;> simp_all
  · intro h
    rw [recognizeToken_of_event settings adapter h]
    exact ⟨rfl, rfl, rfl⟩
  · intro h
    rw [recognizeToken_of_message settings adapter h]
    exact messageBranch_quiet settings adapter a.text

/-- Claim C5 witness: a concrete token-exchange invoke routes to the
token-exchange path. -/
theorem claim_C5_witness :
    (recognizeToken sampleSettings sampleAdapterWithToken
        (sampleExchangeInvoke (some (sampleExchangeValue "Contoso")))).pathTaken =
      some RecogPath.tokenExchange :=
  ((claim_C5 sampleSettings sampleAdapterWithToken
      (sampleExchangeInvoke (some (sampleExchangeValue "Contoso")))).2.2.2.2.2.2.2.2.1).mpr
    ⟨rfl, rfl⟩

/-- Claim C6: on a Teams verification invoke carrying a payload, the prompt
exchanges the code with the provider and replies synchronously with 200
when a token is returned, 404 when none is, and 500 when the provider call
raises; in the latter case the exception is swallowed and `recognizeToken`
returns normally, so the turn continues. -/
theorem claim_C6 (settings : OAuthPromptSettings) (adapter : Adapter)
    (a : Activity) (v : ActivityValue) (ha : isTeamsVerificationInvoke a)
    (hv : a.value = some v) :
    (∀ t, getUserToken settings adapter v.state = Res.ok (some t) →
      (recognizeToken settings adapter a).sends = [SentActivity.invokeResponse 200 none]
      ∧ (recognizeToken settings adapter a).result = Res.ok (mkRecognizerResult (some t)))
    ∧ (getUserToken settings adapter v.state = Res.ok none →
      (recognizeToken settings adapter a).sends = [SentActivity.invokeResponse 404 none]
      ∧ (recognizeToken settings adapter a).result = Res.ok (mkRecognizerResult none))
    ∧ (getUserToken settings adapter v.state = Res.thrown →
      (recognizeToken settings adapter a).sends = [SentActivity.invokeResponse 500 none]
      ∧ (recognizeToken settings adapter a).result = Res.ok (mkRecognizerResult none))
    ∧ (recognizeToken settings adapter a).result ≠ Res.thrown := by
  rw [recognizeToken_of_teams settings adapter ha, hv]
  refine ⟨?_, ?_, ?_, ?_⟩
  · intro t hg
    simp [teamsBranch, hg]
  · intro hg
    simp [teamsBranch, hg]
  · intro hg
    simp [teamsBranch, hg]
  · cases hg : getUserToken settings adapter v.state with
    | ok t => cases t <;> simp [teamsBranch, hg]
    | thrown => simp [teamsBranch, hg]

/-- Claim C6 witness: a concrete verification invoke carrying code 482913
replies 200 when the provider returns a token for it. -/
theorem claim_C6_witness :
    (recognizeToken sampleSettings sampleAdapterWithToken
        (sampleVerifyInvoke (some sampleVerifyValue))).sends =
      [SentActivity.invokeResponse 200 none] :=
  ((claim_C6 sampleSettings sampleAdapterWithToken
      (sampleVerifyInvoke (some sampleVerifyValue)) sampleVerifyValue
      ⟨rfl, rfl⟩ rfl).1 sampleToken rfl).1

/-- Claim C7: on a continue turn whose validation verdict is negative (and
which therefore was neither timed out nor aborted by an exception), the
prompt returns end-of-turn with `attemptCount` preserved in state, and the
retry prompt is sent exactly when no output had been produced this turn,
the inbound activity is a plain message, and a retry prompt is configured
in the stored options. -/
theorem claim_C7 (settings : OAuthPromptSettings)
    (validator : Option (ValidatorInput → Bool)) (adapter : Adapter)
    (a : Activity) (responded : Bool) (st : OAuthPromptState) (now : Nat)
    (hinvalid : (continueDialog settings validator adapter a responded st now).isValid = some false) :
    (continueDialog settings validator adapter a responded st now).result =
        Res.ok DialogTurnResult.endOfTurn
    ∧ ((continueDialog settings validator adapter a responded st now).retrySent = true ↔
        ((responded || !(recognizeToken settings adapter a).sends.isEmpty) = false
          ∧ a.type = ActivityType.message ∧ st.options.retryPrompt.isSome = true))
    ∧ (continueDialog settings validator adapter a responded st now).newAttemptCount =
        some (st.attemptCount.getD 0 + (if validator.isSome then 1 else 0))
    ∧ (continueDialog settings validator adapter a responded st now).hasTimedOut = false := by
  cases hres : (recognizeToken settings adapter a).result with
  | thrown =>
    exfalso
    simp [continueDialog, hres] at hinvalid
  | ok r =>
    by_cases ht : a.type = ActivityType.message ∧ now > st.expires
    · exfalso
      simp only [continueDialog, hres] at hinvalid
      rw [if_pos ht] at hinvalid
      simp at hinvalid
    · cases validator with
      | none =>
        simp only [continueDialog, hres] at hinvalid ⊢
        rw [if_neg ht] at hinvalid ⊢
        cases hs : r.succeeded with
        | true => simp [hs] at hinvalid
        | false =>
          simp only [hs] at hinvalid ⊢
          split_ifs <;> simp_all
      | some f =>
        simp only [continueDialog, hres] at hinvalid ⊢
        rw [if_neg ht] at hinvalid ⊢
        cases hf : f ⟨r, st.options, st.attemptCount.getD 0 + 1⟩ with
        | true => simp [hf] at hinvalid
        | false =>
          simp only [hf] at hinvalid ⊢
          split_ifs <;> simp_all

/-- Claim C7 witness: a concrete unrecognized non-timed-out message with a
retry prompt configured suspends with end of turn. -/
theorem claim_C7_witness :
    (continueDialog sampleSettings none sampleAdapterNoToken
        (sampleMessage "hello") false sampleState 500).result =
      Res.ok DialogTurnResult.endOfTurn :=
  (claim_C7 sampleSettings none sampleAdapterNoToken (sampleMessage "hello")
      false sampleState 500 rfl).1

/-- Claim C8: when the silent `getUserToken` lookup at begin time returns a
token, the prompt completes within the same turn with that token and sends
nothing (no login card); only when the lookup returns no token is the card
sent and the waiting result returned. -/
theorem claim_C8 (settings : OAuthPromptSettings) (adapter : Adapter)
    (options : PromptOptions) (now : Nat) :
    (∀ t, getUserToken settings adapter none = Res.ok (some t) →
      (beginDialog settings adapter options now).sends = []
      ∧ (beginDialog settings adapter options now).result =
          Res.ok (DialogTurnResult.endDialog (some t)))
    ∧ (getUserToken settings adapter none = Res.ok none →
      (beginDialog settings adapter options now).sends = [SentActivity.cardPrompt]
      ∧ (beginDialog settings adapter options now).result =
          Res.ok DialogTurnResult.endOfTurn) := by
  constructor
  · intro t hg
    simp [beginDialog, hg]
  · intro hg
    simp [beginDialog, hg]

/-- Claim C8 witness: with a token already held by the provider, a concrete
begin turn completes at once with it and sends nothing. -/
theorem claim_C8_witness :
    (beginDialog sampleSettings sampleAdapterSilentToken sampleState.options 5).sends = []
    ∧ (beginDialog sampleSettings sampleAdapterSilentToken sampleState.options 5).result =
        Res.ok (DialogTurnResult.endDialog (some sampleToken)) :=
  (claim_C8 sampleSettings sampleAdapterSilentToken sampleState.options 5).1
    sampleToken rfl

/-- Claim C10: recognition runs to completion before the timeout check, so
a timed-out plain message containing a six-digit code still performs the
provider `getUserToken` round-trip, recognizes its token, and then the
timeout completion discards it. -/
theorem claim_C10 (settings : OAuthPromptSettings)
    (validator : Option (ValidatorInput → Bool)) (adapter : Adapter)
    (a : Activity) (responded : Bool) (st : OAuthPromptState) (now : Nat)
    (code : String) (tok : TokenResponse)
    (hmsg : a.type = ActivityType.message)
    (htime : now > st.expires)
    (hcode : a.text.bind extractSixDigitCode = some code)
    (htok : getUserToken settings adapter (some code) = Res.ok (some tok)) :
    (recognizeToken settings adapter a).getUserTokenCalls = [some code]
    ∧ (recognizeToken settings adapter a).result =
        Res.ok (mkRecognizerResult (some tok))
    ∧ (continueDialog settings validator adapter a responded st now).result =
        Res.ok (DialogTurnResult.endDialog none) := by
  have hR := recognizeToken_of_message settings adapter hmsg
  have h1 : (recognizeToken settings adapter a).getUserTokenCalls = [some code] := by
    rw [hR]
    simp [messageBranch, hcode, htok]
  have h2 : (recognizeToken settings adapter a).result =
      Res.ok (mkRecognizerResult (some tok)) := by
    rw [hR]
    simp [messageBranch, hcode, htok]
  refine ⟨h1, h2, ?_⟩
  simp only [continueDialog, h2]
  rw [if_pos ⟨hmsg, htime⟩]

/-- Claim C10 witness: a concrete timed-out message carrying code 482913
still records the provider lookup, and the prompt completes with an absent
token. -/
theorem claim_C10_witness :
    (recognizeToken sampleSettings sampleAdapterWithToken
        (sampleMessage "Your code is 482913")).getUserTokenCalls = [some "482913"]
    ∧ (continueDialog sampleSettings none sampleAdapterWithToken
        (sampleMessage "Your code is 482913") false sampleState 1500).result =
        Res.ok (DialogTurnResult.endDialog none) :=
  ⟨(claim_C10 sampleSettings none sampleAdapterWithToken
      (sampleMessage "Your code is 482913") false sampleState 1500 "482913"
      sampleToken rfl (by decide) (by decide) rfl).1,
   (claim_C10 sampleSettings none sampleAdapterWithToken
      (sampleMessage "Your code is 482913") false sampleState 1500 "482913"
      sampleToken rfl (by decide) (by decide) rfl).2.2⟩

namespace DialogManager

/-! ### Helper lemmas for the turn driver -/

lemma onTurnAccess_lastAccess {α : Type} (expireAfter : Option Nat)
    (now : Nat) (st : ConvState α) :
    (onTurnAccess expireAfter now st).state.lastAccess =
      some (st.lastAccess.getD now) := rfl

lemma runTurns_lastAccess {α : Type} (expireAfter : Option Nat) (t0 : Nat) :
    ∀ (ts : List Nat) (st : ConvState α), st.lastAccess = some t0 →
      (runTurns expireAfter st ts).lastAccess = some t0 := by
  intro ts
  induction ts with
  | nil => intro st hst; exact hst
  | cons t rest ih =>
    intro st hst
    show (runTurns expireAfter (onTurnAccess expireAfter t st).state rest).lastAccess = some t0
    apply ih
    rw [onTurnAccess_lastAccess, hst]
    rfl

lemma emitEventFromLeaf_any {ε : Type} (frames : List (ε → Bool)) (e : ε) :
    emitEventFromLeaf frames e = frames.any (fun f => f e) := by
  induction frames with
  | nil => rfl
  | cons f rest ih =>
    cases hf : f e <;> simp [emitEventFromLeaf, hf, ih]

end DialogManager

/-- Claim C9: the turn driver writes back to `_lastAccess` exactly the
value it loaded (defaulting to the current time only when the property was
absent), so after the first turn the stored timestamp never advances; and
with `expireAfter` configured, a turn clears the conversation state
exactly when at least that many milliseconds have elapsed since the first
recorded access — on such a turn the payload is cleared while the stale
timestamp is written back again. -/
theorem claim_C9 (α : Type) (expireAfter : Option Nat) (now t0 e : Nat)
    (st : DialogManager.ConvState α) (ts : List Nat) (d : Option α) :
    ((DialogManager.onTurnAccess expireAfter now st).state.lastAccess =
        some (st.lastAccess.getD now))
    ∧ ((DialogManager.runTurns expireAfter
          ({ lastAccess := some t0, data := d } : DialogManager.ConvState α)
          ts).lastAccess = some t0)
    ∧ ((DialogManager.onTurnAccess (some e) now
          ({ lastAccess := some t0, data := d } : DialogManager.ConvState α)).cleared = true
        ↔ t0 + e ≤ now)
    ∧ ((DialogManager.onTurnAccess (some e) now
          ({ lastAccess := some t0, data := d } : DialogManager.ConvState α)).cleared = true →
        (DialogManager.onTurnAccess (some e) now
          ({ lastAccess := some t0, data := d } : DialogManager.ConvState α)).state =
          { lastAccess := some t0, data := none }) := by
  refine ⟨DialogManager.onTurnAccess_lastAccess expireAfter now st,
    DialogManager.runTurns_lastAccess expireAfter t0 ts _ rfl, ?_, ?_⟩
  · simp only [DialogManager.onTurnAccess, Option.getD_some, decide_eq_true_eq]
    omega
  · by_cases hq : (now : Int) - (t0 : Int) ≥ (e : Int)
    · intro _
      simp [DialogManager.onTurnAccess, DialogManager.clearConversationState, hq]
    · intro hcl
      exfalso
      simp [DialogManager.onTurnAccess, hq] at hcl

/-- Claim C9 witness: a concrete run — first turn at 100 with `expireAfter`
1000, further turns at 300 and 700 — leaves the stored timestamp at 100. -/
theorem claim_C9_witness :
    (DialogManager.runTurns (some 1000)
        ({ lastAccess := some 100, data := some 7 } : DialogManager.ConvState Nat)
        [300, 700]).lastAccess = some 100 :=
  (claim_C9 Nat (some 1000) 300 100 1000
      ({ lastAccess := some 100, data := some 7 } : DialogManager.ConvState Nat)
      [300, 700] (some 7)).2.1

/-- Claim C4 counterexample: with a stack whose only handler consumes
error 0, a first attempt raising 0 (consumed) and a second attempt raising
1 (not consumed), the first escaping exception is consumed by a dialog and
yet the turn does not complete normally: the driver re-raises the second
exception and skips the save and the trace.  This refutes the claim that
consumption of the error by some dialog suffices for the turn to complete
normally with state saved. -/
theorem claim_C4_counterexample :
    ((fun i => if i = 0 then DialogManager.TurnOutcome.raised 0
        else DialogManager.TurnOutcome.raised 1 :
        Nat → DialogManager.TurnOutcome Nat Nat) 0 =
      DialogManager.TurnOutcome.raised 0)
    ∧ DialogManager.emitEventFromLeaf [fun (e : Nat) => e == 0] 0 = true
    ∧ DialogManager.onTurnDrive
        (fun i => if i = 0 then DialogManager.TurnOutcome.raised 0
          else DialogManager.TurnOutcome.raised 1 :
          Nat → DialogManager.TurnOutcome Nat Nat)
        [fun (e : Nat) => e == 0] 3 =
      some { result := DialogManager.TurnOutcome.raised 1,
             saved := false, traceSent := false } :=
  ⟨rfl, rfl, rfl⟩

/-- Claim C4 (amended): when an exception escapes an attempt of
`beginDialog`/`continueDialog`, the driver emits the error event, which
bubbles from the leaf toward the root (consumed exactly when some frame
handles it); if no dialog consumes it, the same exception is re-raised to
the callers of the driver and both the state save and the trace activity
are skipped; if some dialog consumes it, the driver retries the dialog
logic, and the turn completes normally with state saved provided the next
attempt completes without an exception (consumption alone does not
guarantee normal completion). -/
theorem claim_C4 (ε ρ : Type) (attempts : Nat → DialogManager.TurnOutcome ε ρ)
    (frames : List (ε → Bool)) (e : ε) (r : ρ) (fuel : Nat)
    (h0 : attempts 0 = DialogManager.TurnOutcome.raised e)
    (hfuel : 2 ≤ fuel) :
    (DialogManager.emitEventFromLeaf frames e = frames.any (fun f => f e))
    ∧ (DialogManager.emitEventFromLeaf frames e = false →
        DialogManager.onTurnDrive attempts frames fuel =
          some { result := DialogManager.TurnOutcome.raised e,
                 saved := false, traceSent := false })
    ∧ (DialogManager.emitEventFromLeaf frames e = true →
        attempts 1 = DialogManager.TurnOutcome.completed r →
        DialogManager.onTurnDrive attempts frames fuel =
          some { result := DialogManager.TurnOutcome.completed r,
                 saved := true, traceSent := true }) := by
  obtain ⟨k, rfl⟩ : ∃ k, fuel = k + 2 := ⟨fuel - 2, by omega⟩
  refine ⟨DialogManager.emitEventFromLeaf_any frames e, ?_, ?_⟩
  · intro hne
    simp [DialogManager.onTurnDrive, DialogManager.driveLoop, h0, hne]
  · intro hyes h1
    simp [DialogManager.onTurnDrive, DialogManager.driveLoop, h0, hyes, h1]

/-- Claim C4 witness: a concrete consumed first failure followed by a
successful retry completes the turn normally with the save and trace
performed. -/
theorem claim_C4_witness :
    DialogManager.onTurnDrive
        (fun i => if i = 0 then DialogManager.TurnOutcome.raised (0 : Nat)
          else DialogManager.TurnOutcome.completed (7 : Nat))
        [fun (e : Nat) => e == 0] 2 =
      some { result := DialogManager.TurnOutcome.completed 7,
             saved := true, traceSent := true } :=
  ((claim_C4 Nat Nat
      (fun i => if i = 0 then DialogManager.TurnOutcome.raised 0
        else DialogManager.TurnOutcome.completed 7)
      [fun (e : Nat) => e == 0] 0 7 2 rfl (le_refl 2)).2.2 rfl rfl)

end BotBuilder
